import Mathlib

/-!
# Astron — a shallow embedding of `src/Scripts/game.js`

This file embeds the simulation core of the Astron arcade game in Lean 4
and proves the specification's claims about it.  JavaScript numbers are
modelled as exact rationals (`ℚ`); the decimal literals of the source
(`0.99`, `0.002`, `0.01`) become the corresponding rationals.  Every call
to `Math.random()` is modelled by an explicit oracle: a stream of values
indexed by a creation counter kept in the game state, so that each
randomized construction receives its own independent draws and every
theorem is quantified over all possible draws.  Trigonometric expressions
(`Math.cos`/`Math.sin` of the ship rotation or of a random particle
angle) are modelled by letting the oracle (or the event) supply the
resulting vector directly, since no claim depends on their values.
Rendering and DOM calls are modelled by their observable effects only:
`showGameOverUI()` is the increment of a signal counter together with
`startCountdown()` setting the countdown to 3.
-/

namespace Astron

/-- Game state constants from the top of `game.js`.  `FRICTION = 0.99`. -/
def FRICTION : ℚ := 99 / 100

/-- `SHIP_ROTATION_SPEED = 0.1`. -/
def SHIP_ROTATION_SPEED : ℚ := 1 / 10

/-- `SHIP_THRUST = 0.1`. -/
def SHIP_THRUST : ℚ := 1 / 10

/-- `PROJECTILE_SPEED = 5`. -/
def PROJECTILE_SPEED : ℚ := 5

/-- `ASTEROID_SPAWN_RATE = 4000` (ms). -/
def ASTEROID_SPAWN_RATE : ℚ := 4000

/-- A 2-D vector `{x, y}` of JavaScript numbers, modelled over `ℚ`. -/
structure Vec2 where
  x : ℚ
  y : ℚ
deriving DecidableEq, Repr

/-- The `Player` object: `position`, `velocity`, `rotation` (radians),
`lives`, `score`, `bestScore`, `isThrusting`, as set up by the `Player`
constructor and mutated by the game.  `lives`/`score`/`bestScore` are
integer-valued JavaScript numbers, modelled as `ℤ`. -/
structure PlayerS where
  position : Vec2
  velocity : Vec2
  rotation : ℚ
  lives : ℤ
  score : ℤ
  bestScore : ℤ
  isThrusting : Bool
deriving DecidableEq, Repr

/-- A `Projectile`: position, velocity, constant radius 3.  The
constructor computes velocity as `(cos rotation, sin rotation) *
PROJECTILE_SPEED`; the trigonometric direction is supplied as a
parameter when the fire event is modelled. -/
structure Projectile where
  position : Vec2
  velocity : Vec2
  radius : ℚ
deriving DecidableEq, Repr

/-- An `Asteroid`: position, radius, random side count (5–10), random
drift velocity (components in `(-0.5, 0.5)`), and random jagged-edge
offsets, the random fields filled in from the oracle at creation. -/
structure Asteroid where
  position : Vec2
  radius : ℚ
  sides : ℕ
  velocity : Vec2
  offsets : List ℚ
deriving DecidableEq, Repr

/-- A `Particle`: position, velocity, random radius (`Math.random()*2+1`),
alpha starting at 1 and fading by 0.01 per update. -/
structure Particle where
  position : Vec2
  velocity : Vec2
  radius : ℚ
  alpha : ℚ
deriving DecidableEq, Repr

/-- The oracle supplying every `Math.random()`-derived quantity, indexed
by per-kind creation counters held in the game state.  `particleVel n`
is the velocity `(cos a * s, sin a * s)` of the `n`-th particle ever
created (random angle `a`, random speed `s`); `particleRadius n` its
random radius; `asteroidSides`, `asteroidVel`, `asteroidOffsets` are the
random fields of the `n`-th asteroid constructed. -/
structure Oracle where
  particleVel : ℕ → Vec2
  particleRadius : ℕ → ℚ
  asteroidSides : ℕ → ℕ
  asteroidVel : ℕ → Vec2
  asteroidOffsets : ℕ → List ℚ

/-- Screen wrapping applied to one coordinate, from `Player.update` /
`Asteroid.update`:
`if (x > w) x = 0; if (x < 0) x = w;` — two sequential `if`s. -/
def wrap (w : ℚ) (t : ℚ) : ℚ :=
  let t1 := if t > w then 0 else t
  if t1 < 0 then w else t1

/-- `Player.update()` (the `draw()` call is rendering and has no effect
on the state): integrate position, wrap both axes, then apply friction
to the velocity. -/
def Player.update (w h : ℚ) (p : PlayerS) : PlayerS :=
  { p with
    position := ⟨wrap w (p.position.x + p.velocity.x),
                 wrap h (p.position.y + p.velocity.y)⟩
    velocity := ⟨p.velocity.x * FRICTION, p.velocity.y * FRICTION⟩ }

/-- `Projectile.update()`: integrate position, no wrapping. -/
def Projectile.update (p : Projectile) : Projectile :=
  { p with position := ⟨p.position.x + p.velocity.x, p.position.y + p.velocity.y⟩ }

/-- `Asteroid.update()`: integrate position and wrap both axes. -/
def Asteroid.update (w h : ℚ) (a : Asteroid) : Asteroid :=
  { a with
    position := ⟨wrap w (a.position.x + a.velocity.x),
                 wrap h (a.position.y + a.velocity.y)⟩ }

/-- `Particle.update()`: integrate position and fade alpha by 0.01. -/
def Particle.update (p : Particle) : Particle :=
  { p with
    position := ⟨p.position.x + p.velocity.x, p.position.y + p.velocity.y⟩
    alpha := p.alpha - 1 / 100 }

/-- Squared Euclidean distance between two points.  The source compares
`Math.hypot(dx, dy) < r`; the embedding compares `distSq < r²`, which is
equivalent for `0 ≤ r` (proved in `hitWithin_iff_dist_lt`). -/
def distSq (a b : Vec2) : ℚ :=
  (a.x - b.x) ^ 2 + (a.y - b.y) ^ 2

/-- The circle-collision test `Math.hypot(dx, dy) < r` in squared form. -/
def hitWithin (a b : Vec2) (r : ℚ) : Bool :=
  decide (distSq a b < r ^ 2)

/-- Squared magnitude of a velocity vector (`speed²`). -/
def speedSq (v : Vec2) : ℚ := v.x ^ 2 + v.y ^ 2

/-- The `Asteroid` constructor `new Asteroid(position, radius)`: the
random side count, drift velocity and jagged offsets are the oracle's
draws for the `n`-th asteroid created. -/
def mkAsteroid (o : Oracle) (n : ℕ) (pos : Vec2) (r : ℚ) : Asteroid :=
  { position := pos
    radius := r
    sides := o.asteroidSides n
    velocity := o.asteroidVel n
    offsets := o.asteroidOffsets n }

/-- The `Particle` constructor `new Particle(position, velocity)` with
its random radius supplied by the oracle. -/
def mkParticle (pos vel : Vec2) (r : ℚ) : Particle :=
  { position := pos, velocity := vel, radius := r, alpha := 1 }

/-- The global mutable game state: canvas dimensions, the player
singleton, the `projectiles` / `asteroids` / `particles` arrays, the
`isGameOver` flag, the active countdown value set by `startCountdown`,
the number of times `showGameOverUI()` has raised the game-over UI
signal, and the per-kind creation counters indexing the oracle. -/
structure GameState where
  width : ℚ
  height : ℚ
  player : PlayerS
  projectiles : List Projectile
  asteroids : List Asteroid
  particles : List Particle
  isGameOver : Bool
  countdown : ℤ
  gameOverSignals : ℕ
  particleCtr : ℕ
  asteroidCtr : ℕ

/-- `createExplosion(position, count)`: push `count` particles at
`position`, each with an oracle-supplied random velocity and radius. -/
def createExplosion (o : Oracle) (pos : Vec2) (count : ℕ) (s : GameState) : GameState :=
  { s with
    particles := s.particles ++ (List.range count).map fun i =>
      mkParticle pos (o.particleVel (s.particleCtr + i)) (o.particleRadius (s.particleCtr + i))
    particleCtr := s.particleCtr + count }

/-- The body of the player–asteroid collision branch in
`checkCollisions` (run when `dist < asteroid.radius + 15`): decrement
lives; if lives reached `≤ 0`, set the game-over flag, clamp lives to 0
and raise the game-over UI (which starts the 3-second countdown); spawn
20 explosion particles at the player position; remove the asteroid at
index `i`. -/
def resolvePlayerHit (o : Oracle) (i : ℕ) (s : GameState) : GameState :=
  let p1 := { s.player with lives := s.player.lives - 1 }
  let s1 := { s with player := p1 }
  let s2 :=
    if p1.lives ≤ 0 then
      { s1 with
        isGameOver := true
        player := { p1 with lives := 0 }
        gameOverSignals := s1.gameOverSignals + 1
        countdown := 3 }
    else s1
  let s3 := createExplosion o s2.player.position 20 s2
  { s3 with asteroids := s3.asteroids.eraseIdx i }

/-- Pass 1 of `checkCollisions`: `for (i = asteroids.length - 1; i >= 0;
i--)`, examining `asteroids[i]` against the player.  The argument is the
current loop bound; `playerAsteroidLoop o (i+1) s` handles index `i` and
recurses downwards, exactly as the reverse `for` loop does (removal at
index `i` never disturbs the indices below `i` that remain to be
visited). -/
def playerAsteroidLoop (o : Oracle) : ℕ → GameState → GameState
  | 0, s => s
  | i + 1, s =>
    let s1 :=
      match s.asteroids.get? i with
      | none => s
      | some a =>
        if hitWithin s.player.position a.position (a.radius + 15) then
          resolvePlayerHit o i s
        else s
    playerAsteroidLoop o i s1

/-- The body of the projectile–asteroid collision branch in
`checkCollisions` (run when `dist < asteroid.radius`), except for the
removal of the projectile itself which the outer loop performs: add 10
to the score; if the asteroid's radius exceeds 15, push two child
asteroids at a copy of its position with half its radius; spawn 10
explosion particles at the projectile position; remove the asteroid at
index `i` (the children were appended past it, so index `i` still names
the parent). -/
def resolveProjectileHit (o : Oracle) (proj : Projectile) (i : ℕ) (a : Asteroid)
    (s : GameState) : GameState :=
  let s1 := { s with player := { s.player with score := s.player.score + 10 } }
  let s2 :=
    if a.radius > 15 then
      { s1 with
        asteroids := s1.asteroids ++
          [mkAsteroid o s1.asteroidCtr a.position (a.radius / 2),
           mkAsteroid o (s1.asteroidCtr + 1) a.position (a.radius / 2)]
        asteroidCtr := s1.asteroidCtr + 2 }
    else s1
  let s3 := createExplosion o proj.position 10 s2
  { s3 with asteroids := s3.asteroids.eraseIdx i }

/-- The inner loop of pass 2 of `checkCollisions`: one projectile
against `for (aIndex = asteroids.length - 1; aIndex >= 0; aIndex--)`.
Returns the updated state together with whether a hit consumed the
projectile (the `break`). -/
def projAstLoop (o : Oracle) (proj : Projectile) : ℕ → GameState → GameState × Bool
  | 0, s => (s, false)
  | i + 1, s =>
    match s.asteroids.get? i with
    | none => projAstLoop o proj i s
    | some a =>
      if hitWithin proj.position a.position a.radius then
        (resolveProjectileHit o proj i a s, true)
      else projAstLoop o proj i s

/-- One iteration of the outer loop of pass 2 for projectile index `i`:
run the inner asteroid loop for `projectiles[i]`; when it hit, the
projectile was removed (`projectiles.splice(pIndex, 1)`). -/
def projectileStep (o : Oracle) (i : ℕ) (s : GameState) : GameState :=
  match s.projectiles.get? i with
  | none => s
  | some proj =>
    let r := projAstLoop o proj s.asteroids.length s
    if r.2 then { r.1 with projectiles := r.1.projectiles.eraseIdx i } else r.1

/-- Pass 2 of `checkCollisions`: `for (pIndex = projectiles.length - 1;
pIndex >= 0; pIndex--)`, the asteroid bound re-read from the current
state at each projectile. -/
def projectilesLoop (o : Oracle) : ℕ → GameState → GameState
  | 0, s => s
  | i + 1, s => projectilesLoop o i (projectileStep o i s)

/-- `checkCollisions()`: the player–asteroid pass followed by the
projectile–asteroid pass. -/
def checkCollisions (o : Oracle) (s : GameState) : GameState :=
  let s1 := playerAsteroidLoop o s.asteroids.length s
  projectilesLoop o s1.projectiles.length s1

/-- The random edge choice in `spawnAsteroid`:
`Math.floor(Math.random() * 4)` with the raw draw `r` made explicit
(0: top, 1: right, 2: bottom, 3: left). -/
def spawnEdge (r : ℚ) : ℤ := ⌊r * 4⌋

/-- The asteroid constructed by `spawnAsteroid()`: spawn point on the
chosen edge with a 40-unit margin outside the bounds (the in-edge
coordinate a fresh draw `coordR` scaled by the edge length), velocity
`(center - spawnPoint) * 0.002` overriding the constructor's random
drift, radius 40.  `n` is the asteroid creation counter. -/
def mkSpawnedAsteroid (o : Oracle) (n : ℕ) (w h edgeR coordR : ℚ) : Asteroid :=
  let edge := spawnEdge edgeR
  let x : ℚ :=
    if edge = 0 then coordR * w
    else if edge = 1 then w + 40
    else if edge = 2 then coordR * w
    else -40
  let y : ℚ :=
    if edge = 0 then -40
    else if edge = 1 then coordR * h
    else if edge = 2 then h + 40
    else coordR * h
  { mkAsteroid o n ⟨x, y⟩ 40 with
    velocity := ⟨(w / 2 - x) * (2 / 1000), (h / 2 - y) * (2 / 1000)⟩ }

/-- `spawnAsteroid()` as a state transformer: push the spawned asteroid. -/
def spawnAsteroid (o : Oracle) (edgeR coordR : ℚ) (s : GameState) : GameState :=
  { s with
    asteroids := s.asteroids ++
      [mkSpawnedAsteroid o s.asteroidCtr s.width s.height edgeR coordR]
    asteroidCtr := s.asteroidCtr + 1 }

/-- One firing of the `ASTEROID_SPAWN_RATE` interval:
`if (!isGameOver) spawnAsteroid();`. -/
def spawnTick (o : Oracle) (edgeR coordR : ℚ) (s : GameState) : GameState :=
  if s.isGameOver then s else spawnAsteroid o edgeR coordR s

/-- `restartGame()`: clear the flag, reset lives to 3 and score to 0
(`bestScore` untouched), empty the three entity arrays, re-center the
player and zero its velocity, and resume `animate()`. -/
def restartGame (s : GameState) : GameState :=
  { s with
    isGameOver := false
    player := { s.player with
                lives := 3
                score := 0
                position := ⟨s.width / 2, s.height / 2⟩
                velocity := ⟨0, 0⟩ }
    asteroids := []
    projectiles := []
    particles := [] }

/-- One firing of the 1-second interval created by `startCountdown()`:
decrement the countdown; at 0, clear the interval and call
`restartGame()`.  The interval exists exactly while the game is over
(it is created by the game-over transition and cleared by the restart),
hence the guard. -/
def countdownTick (s : GameState) : GameState :=
  if s.isGameOver then
    let c := s.countdown - 1
    if c = 0 then restartGame { s with countdown := c }
    else { s with countdown := c }
  else s

/-- The filtering of faded particles inside `animate()`: iterating the
array in reverse, a particle with `alpha ≤ 0` is removed, any other is
updated — which keeps-or-updates each element independently of the
others. -/
def pruneParticles : List Particle → List Particle
  | [] => []
  | p :: rest =>
    if p.alpha ≤ 0 then pruneParticles rest
    else Particle.update p :: pruneParticles rest

/-- One `animate()` frame: when the game is over nothing runs (the
frame is not rescheduled); otherwise advance the player, the
projectiles and the asteroids, prune-and-advance the particles, then
resolve collisions.  Drawing and HUD calls have no state effect. -/
def renderTick (o : Oracle) (s : GameState) : GameState :=
  if s.isGameOver then s
  else
    let s1 := { s with player := Player.update s.width s.height s.player }
    let s2 := { s1 with projectiles := s1.projectiles.map Projectile.update }
    let s3 := { s2 with asteroids := s2.asteroids.map (Asteroid.update s.width s.height) }
    let s4 := { s3 with particles := pruneParticles s3.particles }
    checkCollisions o s4

/-- The asynchronous event sources interleaving on the single thread.
`phys dv dr` is one 16 ms fixed-step tick: it only adds a thrust vector
`dv` (the source's `SHIP_THRUST * (cos rotation, sin rotation)` when
the thrust key is held, zero otherwise) to the velocity and a rotation
delta `dr` (`±SHIP_ROTATION_SPEED` per held key) — both supplied as
parameters since no claim depends on the trigonometry.  `fire v` is one
`Space` keydown pushing a projectile with direction-derived velocity
`v`.  `spawn`/`countdown` are the two timer intervals. -/
inductive Event where
  | render
  | phys (dv : Vec2) (dr : ℚ)
  | fire (v : Vec2)
  | spawn (edgeR coordR : ℚ)
  | countdown

/-- The global step function dispatching one asynchronous event. -/
def step (o : Oracle) : Event → GameState → GameState
  | .render => renderTick o
  | .phys dv dr => fun s =>
      { s with player := { s.player with
        velocity := ⟨s.player.velocity.x + dv.x, s.player.velocity.y + dv.y⟩
        rotation := s.player.rotation + dr } }
  | .fire v => fun s =>
      { s with projectiles := s.projectiles ++ [{ position := s.player.position, velocity := v, radius := 3 }] }
  | .spawn edgeR coordR => spawnTick o edgeR coordR
  | .countdown => countdownTick

/-- The initial state: the `Player` constructor's fields (center
position, zero velocity, 3 lives, 0 score, 0 bestScore), empty entity
arrays, game running. -/
def initState (w h : ℚ) : GameState :=
  { width := w
    height := h
    player := { position := ⟨w / 2, h / 2⟩, velocity := ⟨0, 0⟩, rotation := 0,
                lives := 3, score := 0, bestScore := 0, isThrusting := false }
    projectiles := []
    asteroids := []
    particles := []
    isGameOver := false
    countdown := 0
    gameOverSignals := 0
    particleCtr := 0
    asteroidCtr := 0 }

/-- States reachable from the initial state under any interleaving of
the event sources (the oracle fixed for the run). -/
inductive Reachable (o : Oracle) (w h : ℚ) : GameState → Prop
  | init : Reachable o w h (initState w h)
  | step (e : Event) {s : GameState} : Reachable o w h s → Reachable o w h (step o e s)

/-! ## Basic lemmas about the embedded operations -/

/-- A concrete oracle used for concrete executions: every random draw
fixed to a simple value. -/
def o0 : Oracle :=
  ⟨fun _ => ⟨0, 0⟩, fun _ => 1, fun _ => 5, fun _ => ⟨0, 0⟩, fun _ => []⟩

theorem wrap_bounds (w t : ℚ) (hw : 0 ≤ w) : 0 ≤ wrap w t ∧ wrap w t ≤ w := by
  unfold wrap
  dsimp only
  split_ifs <;> constructor <;> linarith

theorem wrap_of_neg (w t : ℚ) (hw : 0 ≤ w) (ht : t < 0) : wrap w t = w := by
  unfold wrap
  have h1 : ¬ t > w := by linarith
  simp only [h1, if_false, ht, if_true]

theorem wrap_of_gt (w t : ℚ) (ht : t > w) : wrap w t = 0 := by
  unfold wrap
  simp [ht]

theorem distSq_nonneg (a b : Vec2) : 0 ≤ distSq a b := by
  unfold distSq; positivity

/-- The squared collision test agrees with the source's
`Math.hypot(dx,dy) < r` comparison whenever `0 ≤ r`. -/
theorem hitWithin_iff_dist_lt (a b : Vec2) (r : ℚ) (hr : 0 ≤ r) :
    hitWithin a b r = true ↔ Real.sqrt ((distSq a b : ℚ) : ℝ) < (r : ℝ) := by
  unfold hitWithin
  rw [decide_eq_true_eq]
  rcases hr.eq_or_lt with h | h
  · constructor
    · intro hl
      exfalso
      have hd := distSq_nonneg a b
      rw [← h] at hl
      nlinarith
    · intro hl
      exfalso
      have hs : (0 : ℝ) ≤ Real.sqrt ((distSq a b : ℚ) : ℝ) := Real.sqrt_nonneg _
      rw [← h] at hl
      push_cast at hl
      linarith
  · have hpos : (0 : ℝ) < (r : ℝ) := by exact_mod_cast h
    rw [Real.sqrt_lt' hpos]
    constructor
    · intro hl
      have hc : ((distSq a b : ℚ) : ℝ) < ((r ^ 2 : ℚ) : ℝ) := by exact_mod_cast hl
      calc ((distSq a b : ℚ) : ℝ) < ((r ^ 2 : ℚ) : ℝ) := hc
        _ = (r : ℝ) ^ 2 := by push_cast; ring
    · intro hl
      have hc : ((distSq a b : ℚ) : ℝ) < ((r ^ 2 : ℚ) : ℝ) := by
        calc ((distSq a b : ℚ) : ℝ) < (r : ℝ) ^ 2 := hl
          _ = ((r ^ 2 : ℚ) : ℝ) := by push_cast; ring
      exact_mod_cast hc

/-! ## Lemmas about the collision resolver -/

theorem createExplosion_player (o : Oracle) (pos : Vec2) (c : ℕ) (s : GameState) :
    (createExplosion o pos c s).player = s.player := rfl

theorem createExplosion_asteroids (o : Oracle) (pos : Vec2) (c : ℕ) (s : GameState) :
    (createExplosion o pos c s).asteroids = s.asteroids := rfl

theorem createExplosion_projectiles (o : Oracle) (pos : Vec2) (c : ℕ) (s : GameState) :
    (createExplosion o pos c s).projectiles = s.projectiles := rfl

theorem createExplosion_particles (o : Oracle) (pos : Vec2) (c : ℕ) (s : GameState) :
    (createExplosion o pos c s).particles = s.particles ++ (List.range c).map fun i =>
      mkParticle pos (o.particleVel (s.particleCtr + i)) (o.particleRadius (s.particleCtr + i)) :=
  rfl

theorem resolvePlayerHit_lives (o : Oracle) (i : ℕ) (s : GameState) :
    (resolvePlayerHit o i s).player.lives = max (s.player.lives - 1) 0 := by
  unfold resolvePlayerHit createExplosion
  dsimp only
  split_ifs with hle <;> dsimp only <;> omega

theorem resolvePlayerHit_lives_nonneg (o : Oracle) (i : ℕ) (s : GameState) :
    0 ≤ (resolvePlayerHit o i s).player.lives := by
  rw [resolvePlayerHit_lives]; omega

theorem resolvePlayerHit_score (o : Oracle) (i : ℕ) (s : GameState) :
    (resolvePlayerHit o i s).player.score = s.player.score := by
  unfold resolvePlayerHit createExplosion
  dsimp only
  split_ifs <;> rfl

theorem resolvePlayerHit_position (o : Oracle) (i : ℕ) (s : GameState) :
    (resolvePlayerHit o i s).player.position = s.player.position := by
  unfold resolvePlayerHit createExplosion
  dsimp only
  split_ifs <;> rfl

theorem resolvePlayerHit_asteroids (o : Oracle) (i : ℕ) (s : GameState) :
    (resolvePlayerHit o i s).asteroids = s.asteroids.eraseIdx i := by
  unfold resolvePlayerHit createExplosion
  dsimp only
  split_ifs <;> rfl

theorem resolvePlayerHit_particles (o : Oracle) (i : ℕ) (s : GameState) :
    (resolvePlayerHit o i s).particles = s.particles ++ (List.range 20).map fun j =>
      mkParticle s.player.position (o.particleVel (s.particleCtr + j))
        (o.particleRadius (s.particleCtr + j)) := by
  unfold resolvePlayerHit createExplosion
  dsimp only
  split_ifs <;> rfl

theorem resolvePlayerHit_projectiles (o : Oracle) (i : ℕ) (s : GameState) :
    (resolvePlayerHit o i s).projectiles = s.projectiles := by
  unfold resolvePlayerHit createExplosion
  dsimp only
  split_ifs <;> rfl

theorem playerAsteroidLoop_hit (o : Oracle) (i : ℕ) (s : GameState) (a : Asteroid)
    (ha : s.asteroids.get? i = some a)
    (hh : hitWithin s.player.position a.position (a.radius + 15) = true) :
    playerAsteroidLoop o (i + 1) s = playerAsteroidLoop o i (resolvePlayerHit o i s) := by
  conv_lhs => unfold playerAsteroidLoop
  rw [ha]
  simp [hh]

theorem playerAsteroidLoop_miss (o : Oracle) (i : ℕ) (s : GameState) (a : Asteroid)
    (ha : s.asteroids.get? i = some a)
    (hh : hitWithin s.player.position a.position (a.radius + 15) = false) :
    playerAsteroidLoop o (i + 1) s = playerAsteroidLoop o i s := by
  conv_lhs => unfold playerAsteroidLoop
  rw [ha]
  simp [hh]

theorem resolveProjectileHit_score (o : Oracle) (proj : Projectile) (i : ℕ) (a : Asteroid)
    (s : GameState) :
    (resolveProjectileHit o proj i a s).player.score = s.player.score + 10 := by
  unfold resolveProjectileHit createExplosion
  dsimp only
  split_ifs <;> rfl

theorem resolveProjectileHit_projectiles (o : Oracle) (proj : Projectile) (i : ℕ) (a : Asteroid)
    (s : GameState) :
    (resolveProjectileHit o proj i a s).projectiles = s.projectiles := by
  unfold resolveProjectileHit createExplosion
  dsimp only
  split_ifs <;> rfl

theorem resolveProjectileHit_particles (o : Oracle) (proj : Projectile) (i : ℕ) (a : Asteroid)
    (s : GameState) :
    (resolveProjectileHit o proj i a s).particles = s.particles ++ (List.range 10).map fun j =>
      mkParticle proj.position (o.particleVel (s.particleCtr + j))
        (o.particleRadius (s.particleCtr + j)) := by
  unfold resolveProjectileHit createExplosion
  dsimp only
  split_ifs <;> rfl

theorem resolveProjectileHit_asteroids_large (o : Oracle) (proj : Projectile) (i : ℕ)
    (a : Asteroid) (s : GameState) (hi : i < s.asteroids.length) (hr : 15 < a.radius) :
    (resolveProjectileHit o proj i a s).asteroids = s.asteroids.eraseIdx i ++
      [mkAsteroid o s.asteroidCtr a.position (a.radius / 2),
       mkAsteroid o (s.asteroidCtr + 1) a.position (a.radius / 2)] := by
  unfold resolveProjectileHit createExplosion
  dsimp only
  rw [if_pos hr]
  dsimp only
  exact List.eraseIdx_append_of_lt_length hi _

theorem resolveProjectileHit_asteroids_small (o : Oracle) (proj : Projectile) (i : ℕ)
    (a : Asteroid) (s : GameState) (hr : a.radius ≤ 15) :
    (resolveProjectileHit o proj i a s).asteroids = s.asteroids.eraseIdx i := by
  unfold resolveProjectileHit createExplosion
  dsimp only
  rw [if_neg (by linarith)]

theorem projAstLoop_step_none (o : Oracle) (proj : Projectile) (n : ℕ) (s : GameState)
    (hg : s.asteroids.get? n = none) :
    projAstLoop o proj (n + 1) s = projAstLoop o proj n s := by
  conv_lhs => unfold projAstLoop
  rw [hg]

theorem projAstLoop_step_miss (o : Oracle) (proj : Projectile) (n : ℕ) (s : GameState)
    (a : Asteroid) (hg : s.asteroids.get? n = some a)
    (hh : hitWithin proj.position a.position a.radius = false) :
    projAstLoop o proj (n + 1) s = projAstLoop o proj n s := by
  conv_lhs => unfold projAstLoop
  rw [hg]
  simp [hh]

theorem projAstLoop_step_hit (o : Oracle) (proj : Projectile) (n : ℕ) (s : GameState)
    (a : Asteroid) (hg : s.asteroids.get? n = some a)
    (hh : hitWithin proj.position a.position a.radius = true) :
    projAstLoop o proj (n + 1) s = (resolveProjectileHit o proj n a s, true) := by
  conv_lhs => unfold projAstLoop
  rw [hg]
  simp [hh]

theorem projAstLoop_snd_false (o : Oracle) (proj : Projectile) (n : ℕ) (s : GameState)
    (h : (projAstLoop o proj n s).2 = false) : (projAstLoop o proj n s).1 = s := by
  induction n with
  | zero => rfl
  | succ n ih =>
    rcases hg : s.asteroids.get? n with _ | a
    · rw [projAstLoop_step_none o proj n s hg] at h ⊢
      exact ih h
    · cases hb : hitWithin proj.position a.position a.radius
      · rw [projAstLoop_step_miss o proj n s a hg hb] at h ⊢
        exact ih h
      · rw [projAstLoop_step_hit o proj n s a hg hb] at h
        simp at h

theorem projAstLoop_score (o : Oracle) (proj : Projectile) (n : ℕ) (s : GameState) :
    (projAstLoop o proj n s).1.player.score =
      s.player.score + (if (projAstLoop o proj n s).2 then 10 else 0) := by
  induction n with
  | zero => simp [projAstLoop]
  | succ n ih =>
    rcases hg : s.asteroids.get? n with _ | a
    · rw [projAstLoop_step_none o proj n s hg]
      exact ih
    · cases hb : hitWithin proj.position a.position a.radius
      · rw [projAstLoop_step_miss o proj n s a hg hb]
        exact ih
      · rw [projAstLoop_step_hit o proj n s a hg hb]
        simp [resolveProjectileHit_score]

theorem projAstLoop_projectiles (o : Oracle) (proj : Projectile) (n : ℕ) (s : GameState) :
    (projAstLoop o proj n s).1.projectiles = s.projectiles := by
  induction n with
  | zero => rfl
  | succ n ih =>
    rcases hg : s.asteroids.get? n with _ | a
    · rw [projAstLoop_step_none o proj n s hg]
      exact ih
    · cases hb : hitWithin proj.position a.position a.radius
      · rw [projAstLoop_step_miss o proj n s a hg hb]
        exact ih
      · rw [projAstLoop_step_hit o proj n s a hg hb]
        simp [resolveProjectileHit_projectiles]

theorem projectileStep_length (o : Oracle) (i : ℕ) (s : GameState) (proj : Projectile)
    (hp : s.projectiles.get? i = some proj) :
    (projectileStep o i s).projectiles.length =
      if (projAstLoop o proj s.asteroids.length s).2 then s.projectiles.length - 1
      else s.projectiles.length := by
  have hi : i < s.projectiles.length := by
    rw [List.get?_eq_some] at hp
    exact hp.1
  unfold projectileStep
  rw [hp]
  dsimp only
  cases hb : (projAstLoop o proj s.asteroids.length s).2
  · simp only [hb, Bool.false_eq_true, if_false, projAstLoop_projectiles]
  · simp only [hb, if_true]
    rw [projAstLoop_projectiles]
    exact List.length_eraseIdx_of_lt hi

/-! ## Claim C1 -/

/-- The state exhibiting the double game-over transition: a running
game, one life left, and two asteroids both overlapping the player. -/
def sC1 : GameState :=
  { width := 100, height := 100
    player := { position := ⟨50, 50⟩, velocity := ⟨0, 0⟩, rotation := 0,
                lives := 1, score := 0, bestScore := 0, isThrusting := false }
    projectiles := []
    asteroids := [mkAsteroid o0 0 ⟨50, 50⟩ 40, mkAsteroid o0 1 ⟨50, 50⟩ 40]
    particles := []
    isGameOver := false
    countdown := 0
    gameOverSignals := 0
    particleCtr := 0
    asteroidCtr := 2 }

/-- C1: the claim states that the `Running → GameOver` transition is
never triggered again while the state is already `GameOver`, even for
further player–asteroid collisions in the same collision pass.  The
code has no such guard: starting from a running state with one life and
two asteroids overlapping the player, one `checkCollisions()` pass sets
the game-over flag on the first hit, then on the second hit decrements
lives to `-1`, re-clamps, and invokes `showGameOverUI()` (raising the
game-over UI and starting a fresh countdown) a second time while the
state is already `GameOver` — the UI signal fires twice. -/
theorem gameOver_transition_fires_twice_in_one_pass :
    sC1.isGameOver = false ∧ sC1.player.lives = 1 ∧ sC1.gameOverSignals = 0 ∧
    (checkCollisions o0 sC1).isGameOver = true ∧
    (checkCollisions o0 sC1).gameOverSignals = 2 := by
  refine ⟨rfl, rfl, rfl, ?_, ?_⟩ <;>
    norm_num [checkCollisions, sC1, playerAsteroidLoop, projectilesLoop, resolvePlayerHit,
      createExplosion, hitWithin, distSq, mkAsteroid, o0, decide_eq_true_eq]

/-! ## Claim C2 -/

/-- A player one half-step inside the left boundary, moving left fast
enough to cross it in one step. -/
def pC2 : PlayerS :=
  { position := ⟨5, 50⟩, velocity := ⟨-10, 0⟩, rotation := 0,
    lives := 3, score := 0, bestScore := 0, isThrusting := false }

/-- C2 counterexample: the claim puts the post-update coordinates in the
half-open box `[0, width) × [0, height)`.  For a player at `x = 5` with
velocity `x = -10` on a `100 × 100` canvas (pre-update position within
one step's velocity of the boundary), the update wraps `x` to exactly
`width = 100`, which is not `< width`. -/
theorem update_can_land_exactly_on_width :
    pC2.position.x < -pC2.velocity.x ∧ 0 ≤ pC2.position.x ∧
    (Player.update 100 100 pC2).position.x = 100 ∧
    ¬ (Player.update 100 100 pC2).position.x < 100 := by
  refine ⟨by norm_num [pC2], by norm_num [pC2], ?_, ?_⟩ <;>
    norm_num [Player.update, pC2, wrap]

/-- C2 (amended): after one `update()` of a Player or an Asteroid on a
canvas with `0 ≤ width` and `0 ≤ height`, the resulting coordinates lie
in the closed box `[0, width] × [0, height]`, each axis wrapped
independently by reflection through the opposite edge: a coordinate
crossing below 0 is set to exactly `width` (resp. `height`) — attaining
the upper endpoint, so the half-open interval of the original claim is
not achieved — and a coordinate crossing above `width` (resp. `height`)
is set to exactly 0. -/
theorem update_position_in_closed_box (w h : ℚ) (p : PlayerS) (a : Asteroid)
    (hw : 0 ≤ w) (hh : 0 ≤ h) :
    (0 ≤ (Player.update w h p).position.x ∧ (Player.update w h p).position.x ≤ w) ∧
    (0 ≤ (Player.update w h p).position.y ∧ (Player.update w h p).position.y ≤ h) ∧
    (0 ≤ (Asteroid.update w h a).position.x ∧ (Asteroid.update w h a).position.x ≤ w) ∧
    (0 ≤ (Asteroid.update w h a).position.y ∧ (Asteroid.update w h a).position.y ≤ h) ∧
    (p.position.x + p.velocity.x < 0 → (Player.update w h p).position.x = w) ∧
    (p.position.x + p.velocity.x > w → (Player.update w h p).position.x = 0) ∧
    (a.position.y + a.velocity.y < 0 → (Asteroid.update w h a).position.y = h) ∧
    (a.position.y + a.velocity.y > h → (Asteroid.update w h a).position.y = 0) :=
  ⟨wrap_bounds w _ hw, wrap_bounds h _ hh, wrap_bounds w _ hw, wrap_bounds h _ hh,
   fun hlt => wrap_of_neg w _ hw hlt, fun hgt => wrap_of_gt w _ hgt,
   fun hlt => wrap_of_neg h _ hh hlt, fun hgt => wrap_of_gt h _ hgt⟩

/-- Witness for the amended C2 at a concrete input. -/
theorem update_position_in_closed_box_witness :
    (0 ≤ (Player.update 100 100 pC2).position.x ∧
      (Player.update 100 100 pC2).position.x ≤ 100) ∧
    (pC2.position.x + pC2.velocity.x < 0 → (Player.update 100 100 pC2).position.x = 100) :=
  ⟨(update_position_in_closed_box 100 100 pC2 (mkAsteroid o0 0 ⟨50, 50⟩ 40)
      (by norm_num) (by norm_num)).1,
   (update_position_in_closed_box 100 100 pC2 (mkAsteroid o0 0 ⟨50, 50⟩ 40)
      (by norm_num) (by norm_num)).2.2.2.2.1⟩

/-! ## Claims C3, C4, C5 -/

/-- A concrete projectile next to a radius-40 asteroid (`ast0`). -/
def prj0 : Projectile := { position := ⟨10, 10⟩, velocity := ⟨5, 0⟩, radius := 3 }

/-- A concrete radius-40 asteroid near `prj0`. -/
def ast0 : Asteroid := mkAsteroid o0 0 ⟨12, 10⟩ 40

/-- A concrete state holding `prj0` and `ast0`. -/
def sHit : GameState :=
  { width := 100, height := 100
    player := { position := ⟨90, 90⟩, velocity := ⟨0, 0⟩, rotation := 0,
                lives := 3, score := 0, bestScore := 0, isThrusting := false }
    projectiles := [prj0]
    asteroids := [ast0]
    particles := []
    isGameOver := false
    countdown := 0
    gameOverSignals := 0
    particleCtr := 0
    asteroidCtr := 1 }

/-- C3: resolving a projectile hit on an asteroid of radius `R > 15`
appends exactly two children of radius `R/2` at the parent's position
and removes the parent, so the asteroid count rises by exactly 1; on
`R ≤ 15` no children are added and the count drops by exactly 1. -/
theorem projectile_split_invariant (o : Oracle) (proj : Projectile) (i : ℕ) (a : Asteroid)
    (s : GameState) (hi : i < s.asteroids.length) :
    (15 < a.radius →
      (resolveProjectileHit o proj i a s).asteroids.length = s.asteroids.length + 1 ∧
      ∃ c1 c2, (resolveProjectileHit o proj i a s).asteroids = s.asteroids.eraseIdx i ++ [c1, c2] ∧
        c1.radius = a.radius / 2 ∧ c2.radius = a.radius / 2 ∧
        c1.position = a.position ∧ c2.position = a.position) ∧
    (a.radius ≤ 15 →
      (resolveProjectileHit o proj i a s).asteroids = s.asteroids.eraseIdx i ∧
      (resolveProjectileHit o proj i a s).asteroids.length = s.asteroids.length - 1) := by
  constructor
  · intro hr
    have he := resolveProjectileHit_asteroids_large o proj i a s hi hr
    refine ⟨?_, mkAsteroid o s.asteroidCtr a.position (a.radius / 2),
      mkAsteroid o (s.asteroidCtr + 1) a.position (a.radius / 2), he, rfl, rfl, rfl, rfl⟩
    rw [he]
    have h1 : (s.asteroids.eraseIdx i).length = s.asteroids.length - 1 :=
      List.length_eraseIdx_of_lt hi
    rw [List.length_append, h1]
    simp only [List.length_cons, List.length_nil]
    omega
  · intro hr
    have he := resolveProjectileHit_asteroids_small o proj i a s hr
    exact ⟨he, by rw [he]; exact List.length_eraseIdx_of_lt hi⟩

/-- Witness for C3 at a concrete large asteroid (radius 40). -/
theorem projectile_split_invariant_witness :
    (resolveProjectileHit o0 prj0 0 ast0 sHit).asteroids.length = sHit.asteroids.length + 1 :=
  ((projectile_split_invariant o0 prj0 0 ast0 sHit
      (by norm_num [sHit])).1 (by norm_num [ast0, mkAsteroid, o0])).1

/-- C4: in the projectile–asteroid pass a projectile collides with an
asteroid exactly when the Euclidean distance of the centers is strictly
below the asteroid's radius (the projectile's own radius unused); a hit
removes the projectile, adds exactly 10 to the score regardless of
asteroid size, spawns 10 explosion particles at the projectile's
position, and `break` ends the inner loop so each projectile destroys
at most one asteroid per tick (total score delta of the whole inner
loop is 10 on a hit and 0 otherwise, with the state untouched when no
asteroid is hit). -/
theorem projectile_asteroid_pass_spec (o : Oracle) (proj : Projectile) (s : GameState) :
    (∀ a : Asteroid, 0 ≤ a.radius →
      (hitWithin proj.position a.position a.radius = true ↔
        Real.sqrt ((distSq proj.position a.position : ℚ) : ℝ) < ((a.radius : ℚ) : ℝ))) ∧
    (∀ i a, s.asteroids.get? i = some a →
      (hitWithin proj.position a.position a.radius = true →
        projAstLoop o proj (i + 1) s = (resolveProjectileHit o proj i a s, true)) ∧
      (hitWithin proj.position a.position a.radius = false →
        projAstLoop o proj (i + 1) s = projAstLoop o proj i s)) ∧
    (∀ n, (projAstLoop o proj n s).2 = false → (projAstLoop o proj n s).1 = s) ∧
    (∀ n, (projAstLoop o proj n s).1.player.score =
      s.player.score + (if (projAstLoop o proj n s).2 then 10 else 0)) ∧
    (∀ i a, ∃ ps, (resolveProjectileHit o proj i a s).particles = s.particles ++ ps ∧
      ps.length = 10 ∧ ∀ q ∈ ps, q.position = proj.position) ∧
    (∀ i, s.projectiles.get? i = some proj →
      (projectileStep o i s).projectiles.length =
        if (projAstLoop o proj s.asteroids.length s).2 then s.projectiles.length - 1
        else s.projectiles.length) := by
  refine ⟨fun a ha => hitWithin_iff_dist_lt _ _ _ ha,
    fun i a hg => ⟨fun hh => projAstLoop_step_hit o proj i s a hg hh,
      fun hh => projAstLoop_step_miss o proj i s a hg hh⟩,
    fun n => projAstLoop_snd_false o proj n s,
    fun n => projAstLoop_score o proj n s,
    fun i a => ?_,
    fun i hp => projectileStep_length o i s proj hp⟩
  refine ⟨_, resolveProjectileHit_particles o proj i a s, by simp, ?_⟩
  intro q hq
  simp only [List.mem_map, List.mem_range] at hq
  obtain ⟨j, _, rfl⟩ := hq
  rfl

/-- Witness for C4 at the concrete state `sHit`: the single projectile
hits the asteroid, the inner loop reports the hit and the score rises
by exactly 10. -/
theorem projectile_asteroid_pass_spec_witness :
    (projAstLoop o0 prj0 1 sHit).1.player.score =
      sHit.player.score + (if (projAstLoop o0 prj0 1 sHit).2 then 10 else 0) ∧
    projAstLoop o0 prj0 1 sHit = (resolveProjectileHit o0 prj0 0 ast0 sHit, true) :=
  ⟨(projectile_asteroid_pass_spec o0 prj0 sHit).2.2.2.1 1,
   ((projectile_asteroid_pass_spec o0 prj0 sHit).2.1 0 ast0 rfl).1
     (by norm_num [hitWithin, distSq, prj0, ast0, mkAsteroid, o0, decide_eq_true_eq])⟩

/-- C5: in the player–asteroid pass a collision occurs exactly when the
Euclidean distance of the centers is strictly below the asteroid's
radius plus 15; resolving it decrements lives by 1 clamped at 0 (never
observably negative), spawns 20 explosion particles at the player's
position, and removes the asteroid unconditionally with no children
added. -/
theorem player_asteroid_pass_spec (o : Oracle) (s : GameState) (i : ℕ) (a : Asteroid)
    (ha : s.asteroids.get? i = some a) (hr : 0 ≤ a.radius) :
    (hitWithin s.player.position a.position (a.radius + 15) = true ↔
      Real.sqrt ((distSq s.player.position a.position : ℚ) : ℝ) < ((a.radius + 15 : ℚ) : ℝ)) ∧
    (hitWithin s.player.position a.position (a.radius + 15) = true →
      playerAsteroidLoop o (i + 1) s = playerAsteroidLoop o i (resolvePlayerHit o i s)) ∧
    (hitWithin s.player.position a.position (a.radius + 15) = false →
      playerAsteroidLoop o (i + 1) s = playerAsteroidLoop o i s) ∧
    (resolvePlayerHit o i s).player.lives = max (s.player.lives - 1) 0 ∧
    0 ≤ (resolvePlayerHit o i s).player.lives ∧
    (∃ ps, (resolvePlayerHit o i s).particles = s.particles ++ ps ∧ ps.length = 20 ∧
      ∀ q ∈ ps, q.position = s.player.position) ∧
    (resolvePlayerHit o i s).asteroids = s.asteroids.eraseIdx i ∧
    (resolvePlayerHit o i s).asteroids.length = s.asteroids.length - 1 := by
  have hi : i < s.asteroids.length := by
    rw [List.get?_eq_some] at ha
    exact ha.1
  refine ⟨hitWithin_iff_dist_lt _ _ _ (by linarith),
    fun hh => playerAsteroidLoop_hit o i s a ha hh,
    fun hh => playerAsteroidLoop_miss o i s a ha hh,
    resolvePlayerHit_lives o i s,
    resolvePlayerHit_lives_nonneg o i s,
    ⟨_, resolvePlayerHit_particles o i s, by simp, ?_⟩,
    resolvePlayerHit_asteroids o i s,
    by rw [resolvePlayerHit_asteroids]; exact List.length_eraseIdx_of_lt hi⟩
  intro q hq
  simp only [List.mem_map, List.mem_range] at hq
  obtain ⟨j, _, rfl⟩ := hq
  rfl

/-- Witness for C5 at a concrete overlapping state: lives drop from 1
to 0 (clamped) and the asteroid count drops by one. -/
theorem player_asteroid_pass_spec_witness :
    (resolvePlayerHit o0 0 sC1).player.lives = max (sC1.player.lives - 1) 0 ∧
    (resolvePlayerHit o0 0 sC1).asteroids.length = sC1.asteroids.length - 1 :=
  ⟨(player_asteroid_pass_spec o0 sC1 0 (mkAsteroid o0 0 ⟨50, 50⟩ 40) rfl
      (by norm_num [mkAsteroid, o0])).2.2.2.1,
   (player_asteroid_pass_spec o0 sC1 0 (mkAsteroid o0 0 ⟨50, 50⟩ 40) rfl
      (by norm_num [mkAsteroid, o0])).2.2.2.2.2.2.2⟩

/-! ## Claim C6 -/

/-- C6: from any game-over state with the countdown freshly started at
3 (as `startCountdown()` sets it), the first two 1-second ticks leave
the game over, and after exactly 3 ticks the restart transition has
run: the game is running again with lives 3, score 0, all entity
collections empty, the player re-centered with zero velocity, and
`bestScore` untouched (not updated from the score). -/
theorem restart_after_three_ticks (s : GameState)
    (hg : s.isGameOver = true) (hc : s.countdown = 3) :
    (countdownTick s).isGameOver = true ∧
    (countdownTick (countdownTick s)).isGameOver = true ∧
    (countdownTick (countdownTick (countdownTick s))).isGameOver = false ∧
    (countdownTick (countdownTick (countdownTick s))).player.lives = 3 ∧
    (countdownTick (countdownTick (countdownTick s))).player.score = 0 ∧
    (countdownTick (countdownTick (countdownTick s))).player.bestScore = s.player.bestScore ∧
    (countdownTick (countdownTick (countdownTick s))).asteroids = [] ∧
    (countdownTick (countdownTick (countdownTick s))).projectiles = [] ∧
    (countdownTick (countdownTick (countdownTick s))).particles = [] ∧
    (countdownTick (countdownTick (countdownTick s))).player.position = ⟨s.width / 2, s.height / 2⟩ ∧
    (countdownTick (countdownTick (countdownTick s))).player.velocity = ⟨0, 0⟩ := by
  have h1 : countdownTick s = { s with countdown := 2 } := by
    unfold countdownTick
    rw [hg, hc]
    norm_num
  have h2 : countdownTick { s with countdown := 2 } = { s with countdown := 1 } := by
    unfold countdownTick
    rw [hg]
    norm_num
  have h3 : countdownTick { s with countdown := (1 : ℤ) } =
      restartGame { s with countdown := 0 } := by
    unfold countdownTick
    rw [hg]
    norm_num
  rw [h1, h2, h3]
  unfold restartGame
  norm_num [hg]

/-- A concrete game-over state with the countdown at 3. -/
def sC6 : GameState :=
  { sC1 with isGameOver := true, countdown := 3,
             player := { sC1.player with lives := 0 } }

/-- Witness for C6 at the concrete game-over state `sC6`. -/
theorem restart_after_three_ticks_witness :
    (countdownTick sC6).isGameOver = true ∧
    (countdownTick (countdownTick (countdownTick sC6))).isGameOver = false ∧
    (countdownTick (countdownTick (countdownTick sC6))).player.lives = 3 := by
  have h := restart_after_three_ticks sC6 rfl rfl
  exact ⟨h.1, h.2.2.1, h.2.2.2.1⟩

/-! ## Claim C7 -/

/-- N consecutive friction-only render ticks of the player (no thrust
events interleaved: each tick is exactly one `Player.update`). -/
def playerIter (w h : ℚ) : ℕ → PlayerS → PlayerS
  | 0, p => p
  | n + 1, p => playerIter w h n (Player.update w h p)

theorem speedSq_nonneg (v : Vec2) : 0 ≤ speedSq v := by
  unfold speedSq; positivity

theorem playerIter_velocity (w h : ℚ) (n : ℕ) (p : PlayerS) :
    (playerIter w h n p).velocity =
      ⟨p.velocity.x * FRICTION ^ n, p.velocity.y * FRICTION ^ n⟩ := by
  induction n generalizing p with
  | zero => simp [playerIter]
  | succ n ih =>
    show (playerIter w h n (Player.update w h p)).velocity = _
    rw [ih]
    simp only [Player.update, Vec2.mk.injEq]
    constructor <;> ring

theorem playerIter_speedSq (w h : ℚ) (n : ℕ) (p : PlayerS) :
    speedSq (playerIter w h n p).velocity = (FRICTION ^ n) ^ 2 * speedSq p.velocity := by
  rw [playerIter_velocity]
  unfold speedSq
  dsimp only
  ring

theorem sqrt_speedSq_iter (w h : ℚ) (n : ℕ) (p : PlayerS) :
    Real.sqrt ((speedSq (playerIter w h n p).velocity : ℚ) : ℝ) =
      ((FRICTION : ℚ) : ℝ) ^ n * Real.sqrt ((speedSq p.velocity : ℚ) : ℝ) := by
  have hF : (0 : ℝ) ≤ ((FRICTION : ℚ) : ℝ) := by norm_num [FRICTION]
  rw [playerIter_speedSq]
  push_cast
  rw [Real.sqrt_mul (by positivity) _, Real.sqrt_sq (by positivity)]

/-- C7: after N friction-only ticks the player's speed equals
`initialSpeed * 0.99^N`; the speed sequence is non-increasing, strictly
decreasing while the speed is nonzero, and for nonzero initial speed it
never reaches zero. -/
theorem friction_decay_spec (w h : ℚ) (p : PlayerS) (n : ℕ) :
    Real.sqrt ((speedSq (playerIter w h n p).velocity : ℚ) : ℝ) =
      ((FRICTION : ℚ) : ℝ) ^ n * Real.sqrt ((speedSq p.velocity : ℚ) : ℝ) ∧
    Real.sqrt ((speedSq (playerIter w h (n + 1) p).velocity : ℚ) : ℝ) ≤
      Real.sqrt ((speedSq (playerIter w h n p).velocity : ℚ) : ℝ) ∧
    (speedSq p.velocity ≠ 0 →
      Real.sqrt ((speedSq (playerIter w h (n + 1) p).velocity : ℚ) : ℝ) <
        Real.sqrt ((speedSq (playerIter w h n p).velocity : ℚ) : ℝ) ∧
      Real.sqrt ((speedSq (playerIter w h n p).velocity : ℚ) : ℝ) ≠ 0) := by
  have hF0 : (0 : ℝ) < ((FRICTION : ℚ) : ℝ) := by norm_num [FRICTION]
  have hF1 : ((FRICTION : ℚ) : ℝ) < 1 := by norm_num [FRICTION]
  have hs0 : (0 : ℝ) ≤ Real.sqrt ((speedSq p.velocity : ℚ) : ℝ) := Real.sqrt_nonneg _
  refine ⟨sqrt_speedSq_iter w h n p, ?_, ?_⟩
  · rw [sqrt_speedSq_iter, sqrt_speedSq_iter]
    exact mul_le_mul_of_nonneg_right
      (pow_le_pow_of_le_one hF0.le hF1.le (Nat.le_succ n)) hs0
  · intro hne
    have hpos : (0 : ℝ) < ((speedSq p.velocity : ℚ) : ℝ) := by
      have h1 := speedSq_nonneg p.velocity
      have h2 : (0 : ℚ) < speedSq p.velocity := lt_of_le_of_ne h1 (Ne.symm hne)
      exact_mod_cast h2
    have hsq : (0 : ℝ) < Real.sqrt ((speedSq p.velocity : ℚ) : ℝ) := Real.sqrt_pos.mpr hpos
    constructor
    · rw [sqrt_speedSq_iter, sqrt_speedSq_iter]
      exact mul_lt_mul_of_pos_right
        (pow_lt_pow_right_of_lt_one₀ hF0 hF1 (Nat.lt_succ_self n)) hsq
    · rw [sqrt_speedSq_iter]
      positivity

/-- A concrete player with initial velocity `(3, 4)` (speed 5). -/
def pC7 : PlayerS :=
  { position := ⟨50, 50⟩, velocity := ⟨3, 4⟩, rotation := 0,
    lives := 3, score := 0, bestScore := 0, isThrusting := false }

/-- Witness for C7 at the concrete player `pC7` after one tick. -/
theorem friction_decay_spec_witness :
    Real.sqrt ((speedSq (playerIter 100 100 1 pC7).velocity : ℚ) : ℝ) =
      ((FRICTION : ℚ) : ℝ) ^ 1 * Real.sqrt ((speedSq pC7.velocity : ℚ) : ℝ) ∧
    Real.sqrt ((speedSq (playerIter 100 100 1 pC7).velocity : ℚ) : ℝ) ≠ 0 :=
  ⟨(friction_decay_spec 100 100 pC7 1).1,
   ((friction_decay_spec 100 100 pC7 1).2.2 (by norm_num [speedSq, pC7])).2⟩

/-! ## Claims C8, C9 -/

theorem mkSpawnedAsteroid_edge0 (o : Oracle) (n : ℕ) (w h edgeR coordR : ℚ)
    (he : spawnEdge edgeR = 0) :
    (mkSpawnedAsteroid o n w h edgeR coordR).position = ⟨coordR * w, -40⟩ ∧
    (mkSpawnedAsteroid o n w h edgeR coordR).velocity =
      ⟨(w / 2 - coordR * w) * (2 / 1000), (h / 2 - -40) * (2 / 1000)⟩ := by
  unfold mkSpawnedAsteroid mkAsteroid
  dsimp only
  rw [he]
  norm_num

theorem mkSpawnedAsteroid_edge1 (o : Oracle) (n : ℕ) (w h edgeR coordR : ℚ)
    (he : spawnEdge edgeR = 1) :
    (mkSpawnedAsteroid o n w h edgeR coordR).position = ⟨w + 40, coordR * h⟩ := by
  unfold mkSpawnedAsteroid mkAsteroid
  dsimp only
  rw [he]
  norm_num

theorem mkSpawnedAsteroid_edge2 (o : Oracle) (n : ℕ) (w h edgeR coordR : ℚ)
    (he : spawnEdge edgeR = 2) :
    (mkSpawnedAsteroid o n w h edgeR coordR).position = ⟨coordR * w, h + 40⟩ := by
  unfold mkSpawnedAsteroid mkAsteroid
  dsimp only
  rw [he]
  norm_num

theorem mkSpawnedAsteroid_edge3 (o : Oracle) (n : ℕ) (w h edgeR coordR : ℚ)
    (he : spawnEdge edgeR = 3) :
    (mkSpawnedAsteroid o n w h edgeR coordR).position = ⟨-40, coordR * h⟩ ∧
    (mkSpawnedAsteroid o n w h edgeR coordR).velocity =
      ⟨(w / 2 - -40) * (2 / 1000), (h / 2 - coordR * h) * (2 / 1000)⟩ := by
  unfold mkSpawnedAsteroid mkAsteroid
  dsimp only
  rw [he]
  norm_num

/-- C8: `spawnAsteroid()` selects one of the 4 edges uniformly at
random — the raw draw `r ∈ [0, 1)` maps through `⌊4r⌋` onto
`{0, 1, 2, 3}`, each edge receiving exactly the quarter-length interval
`[e/4, (e+1)/4)` of draws; the spawn point sits on the chosen edge with
a 40-unit margin outside the visible bounds; the new asteroid has fixed
radius 40 and velocity `(center - spawnPoint) * 0.002` per axis; and
the spawn timer's callback adds no asteroid while the game is over. -/
theorem spawn_asteroid_spec (o : Oracle) (s : GameState) (edgeR coordR : ℚ) :
    (∀ r : ℚ, 0 ≤ r → r < 1 → 0 ≤ spawnEdge r ∧ spawnEdge r < 4) ∧
    (∀ (r : ℚ) (e : ℤ), spawnEdge r = e ↔ (e : ℚ) / 4 ≤ r ∧ r < ((e : ℚ) + 1) / 4) ∧
    ((spawnAsteroid o edgeR coordR s).asteroids =
      s.asteroids ++ [mkSpawnedAsteroid o s.asteroidCtr s.width s.height edgeR coordR]) ∧
    (∀ (n : ℕ) (w h : ℚ),
      (mkSpawnedAsteroid o n w h edgeR coordR).radius = 40 ∧
      (mkSpawnedAsteroid o n w h edgeR coordR).velocity =
        ⟨(w / 2 - (mkSpawnedAsteroid o n w h edgeR coordR).position.x) * (2 / 1000),
         (h / 2 - (mkSpawnedAsteroid o n w h edgeR coordR).position.y) * (2 / 1000)⟩ ∧
      (spawnEdge edgeR = 0 →
        (mkSpawnedAsteroid o n w h edgeR coordR).position = ⟨coordR * w, -40⟩) ∧
      (spawnEdge edgeR = 1 →
        (mkSpawnedAsteroid o n w h edgeR coordR).position = ⟨w + 40, coordR * h⟩) ∧
      (spawnEdge edgeR = 2 →
        (mkSpawnedAsteroid o n w h edgeR coordR).position = ⟨coordR * w, h + 40⟩) ∧
      (spawnEdge edgeR = 3 →
        (mkSpawnedAsteroid o n w h edgeR coordR).position = ⟨-40, coordR * h⟩)) ∧
    (s.isGameOver = true → spawnTick o edgeR coordR s = s) ∧
    (s.isGameOver = false → spawnTick o edgeR coordR s = spawnAsteroid o edgeR coordR s) := by
  refine ⟨?_, ?_, rfl, ?_, ?_, ?_⟩
  · intro r h0 h1
    constructor
    · exact Int.floor_nonneg.mpr (by linarith)
    · exact Int.floor_lt.mpr (by push_cast; linarith)
  · intro r e
    unfold spawnEdge
    rw [Int.floor_eq_iff]
    constructor
    · rintro ⟨ha, hb⟩
      constructor <;> linarith
    · rintro ⟨ha, hb⟩
      constructor <;> linarith
  · intro n w h
    refine ⟨rfl, rfl, fun he => (mkSpawnedAsteroid_edge0 o n w h edgeR coordR he).1,
      fun he => mkSpawnedAsteroid_edge1 o n w h edgeR coordR he,
      fun he => mkSpawnedAsteroid_edge2 o n w h edgeR coordR he,
      fun he => (mkSpawnedAsteroid_edge3 o n w h edgeR coordR he).1⟩
  · intro hg
    unfold spawnTick
    rw [hg]
    rfl
  · intro hg
    unfold spawnTick
    rw [hg]
    rfl

/-- Witness for C8 at a concrete draw (`r = 1/8` lands on the top edge)
and the concrete game-over state `sC6`. -/
theorem spawn_asteroid_spec_witness :
    spawnEdge (1 / 8) = 0 ∧
    (mkSpawnedAsteroid o0 0 800 600 (1 / 8) (1 / 2)).radius = 40 ∧
    spawnTick o0 (1 / 8) (1 / 2) sC6 = sC6 :=
  ⟨((spawn_asteroid_spec o0 sC6 (1 / 8) (1 / 2)).2.1 (1 / 8) 0).mpr
      ⟨by norm_num, by norm_num⟩,
   ((spawn_asteroid_spec o0 sC6 (1 / 8) (1 / 2)).2.2.2.1 0 800 600).1,
   (spawn_asteroid_spec o0 sC6 (1 / 8) (1 / 2)).2.2.2.2.1 rfl⟩

/-- C9: an asteroid spawned on the top edge (spawn coordinate `y = -40`)
whose single-step velocity is below 40 units still has a negative `y`
after its first integration step, and the wrap then sets `y` to exactly
`height`; symmetrically a left-edge spawn (`x = -40`) is set to exactly
`width`.  Top- and left-spawned asteroids are thus teleported to the
opposite screen edge on their first update. -/
theorem edge_spawn_first_update_teleports (o : Oracle) (n : ℕ) (w h edgeR coordR : ℚ)
    (hw : 0 ≤ w) (hh : 0 ≤ h) :
    (spawnEdge edgeR = 0 →
      (mkSpawnedAsteroid o n w h edgeR coordR).velocity.y < 40 →
      (mkSpawnedAsteroid o n w h edgeR coordR).position.y +
        (mkSpawnedAsteroid o n w h edgeR coordR).velocity.y < 0 ∧
      (Asteroid.update w h (mkSpawnedAsteroid o n w h edgeR coordR)).position.y = h) ∧
    (spawnEdge edgeR = 3 →
      (mkSpawnedAsteroid o n w h edgeR coordR).velocity.x < 40 →
      (mkSpawnedAsteroid o n w h edgeR coordR).position.x +
        (mkSpawnedAsteroid o n w h edgeR coordR).velocity.x < 0 ∧
      (Asteroid.update w h (mkSpawnedAsteroid o n w h edgeR coordR)).position.x = w) := by
  constructor
  · intro he hv
    obtain ⟨hp, _⟩ := mkSpawnedAsteroid_edge0 o n w h edgeR coordR he
    have hy : (mkSpawnedAsteroid o n w h edgeR coordR).position.y = -40 := by rw [hp]
    have hneg : (mkSpawnedAsteroid o n w h edgeR coordR).position.y +
        (mkSpawnedAsteroid o n w h edgeR coordR).velocity.y < 0 := by
      rw [hy]; linarith
    refine ⟨hneg, ?_⟩
    show wrap h _ = h
    exact wrap_of_neg h _ hh hneg
  · intro he hv
    obtain ⟨hp, _⟩ := mkSpawnedAsteroid_edge3 o n w h edgeR coordR he
    have hx : (mkSpawnedAsteroid o n w h edgeR coordR).position.x = -40 := by rw [hp]
    have hneg : (mkSpawnedAsteroid o n w h edgeR coordR).position.x +
        (mkSpawnedAsteroid o n w h edgeR coordR).velocity.x < 0 := by
      rw [hx]; linarith
    refine ⟨hneg, ?_⟩
    show wrap w _ = w
    exact wrap_of_neg w _ hw hneg

/-- Witness for C9: an `800 × 600` canvas, a top-edge draw, the spawned
asteroid's first update lands on `y = height = 600`. -/
theorem edge_spawn_first_update_teleports_witness :
    (Asteroid.update 800 600 (mkSpawnedAsteroid o0 0 800 600 (1 / 8) (1 / 2))).position.y = 600 :=
  ((edge_spawn_first_update_teleports o0 0 800 600 (1 / 8) (1 / 2) (by norm_num)
      (by norm_num)).1 (by norm_num [spawnEdge])
    (by norm_num [mkSpawnedAsteroid, mkAsteroid, spawnEdge])).2

/-! ## Claim C10 -/

theorem playerAsteroidLoop_none (o : Oracle) (n : ℕ) (s : GameState)
    (hg : s.asteroids.get? n = none) :
    playerAsteroidLoop o (n + 1) s = playerAsteroidLoop o n s := by
  conv_lhs => unfold playerAsteroidLoop
  rw [hg]

theorem playerAsteroidLoop_score (o : Oracle) (n : ℕ) (s : GameState) :
    (playerAsteroidLoop o n s).player.score = s.player.score := by
  induction n generalizing s with
  | zero => rfl
  | succ n ih =>
    rcases hg : s.asteroids.get? n with _ | a
    · rw [playerAsteroidLoop_none o n s hg]
      exact ih s
    · cases hb : hitWithin s.player.position a.position (a.radius + 15)
      · rw [playerAsteroidLoop_miss o n s a hg hb]
        exact ih s
      · rw [playerAsteroidLoop_hit o n s a hg hb]
        rw [ih _, resolvePlayerHit_score]

theorem projectileStep_score (o : Oracle) (i : ℕ) (s : GameState) :
    ∃ k : ℕ, (projectileStep o i s).player.score = s.player.score + 10 * k := by
  unfold projectileStep
  rcases hp : s.projectiles.get? i with _ | proj
  · exact ⟨0, by simp⟩
  · dsimp only
    have hs := projAstLoop_score o proj s.asteroids.length s
    cases hb : (projAstLoop o proj s.asteroids.length s).2
    · rw [hb] at hs
      exact ⟨0, by simpa using hs⟩
    · rw [hb] at hs
      exact ⟨1, by simpa using hs⟩

theorem projectilesLoop_score (o : Oracle) (n : ℕ) (s : GameState) :
    ∃ k : ℕ, (projectilesLoop o n s).player.score = s.player.score + 10 * k := by
  induction n generalizing s with
  | zero => exact ⟨0, by simp [projectilesLoop]⟩
  | succ n ih =>
    obtain ⟨k1, h1⟩ := projectileStep_score o n s
    obtain ⟨k2, h2⟩ := ih (projectileStep o n s)
    refine ⟨k1 + k2, ?_⟩
    show (projectilesLoop o n (projectileStep o n s)).player.score = _
    rw [h2, h1]
    push_cast
    ring

theorem checkCollisions_score (o : Oracle) (s : GameState) :
    ∃ k : ℕ, (checkCollisions o s).player.score = s.player.score + 10 * k := by
  unfold checkCollisions
  obtain ⟨k, hk⟩ := projectilesLoop_score o
    (playerAsteroidLoop o s.asteroids.length s).projectiles.length
    (playerAsteroidLoop o s.asteroids.length s)
  exact ⟨k, by rw [hk, playerAsteroidLoop_score]⟩

theorem renderTick_score (o : Oracle) (s : GameState) :
    ∃ k : ℕ, (renderTick o s).player.score = s.player.score + 10 * k := by
  unfold renderTick
  split_ifs with hgo
  · exact ⟨0, by simp⟩
  · obtain ⟨k, hk⟩ := checkCollisions_score o
      { s with
        player := Player.update s.width s.height s.player
        projectiles := s.projectiles.map Projectile.update
        asteroids := s.asteroids.map (Asteroid.update s.width s.height)
        particles := pruneParticles s.particles }
    exact ⟨k, hk⟩

theorem step_score_shape (o : Oracle) (e : Event) (s : GameState) :
    (step o e s).player.score = 0 ∨
      ∃ k : ℕ, (step o e s).player.score = s.player.score + 10 * k := by
  cases e with
  | render => exact Or.inr (renderTick_score o s)
  | phys dv dr => exact Or.inr ⟨0, by simp [step]⟩
  | fire v => exact Or.inr ⟨0, by simp [step]⟩
  | spawn a b =>
    refine Or.inr ⟨0, ?_⟩
    show (spawnTick o a b s).player.score = _
    unfold spawnTick spawnAsteroid
    split_ifs <;> simp
  | countdown =>
    by_cases hg : s.isGameOver = true
    · by_cases hc : s.countdown - 1 = 0
      · exact Or.inl (by simp [step, countdownTick, hg, hc, restartGame])
      · exact Or.inr ⟨0, by simp [step, countdownTick, hg, hc]⟩
    · exact Or.inr ⟨0, by simp [step, countdownTick, hg]⟩

theorem step_score_mono (o : Oracle) (e : Event) (s : GameState)
    (hno : ¬(e = Event.countdown ∧ s.isGameOver = true ∧ s.countdown = 1)) :
    s.player.score ≤ (step o e s).player.score := by
  cases e with
  | render =>
    obtain ⟨k, hk⟩ := renderTick_score o s
    show s.player.score ≤ (renderTick o s).player.score
    rw [hk]
    have hp : (0 : ℤ) ≤ 10 * (k : ℤ) := by positivity
    linarith
  | phys dv dr => simp [step]
  | fire v => simp [step]
  | spawn a b =>
    show s.player.score ≤ (spawnTick o a b s).player.score
    unfold spawnTick spawnAsteroid
    split_ifs <;> simp
  | countdown =>
    by_cases hg : s.isGameOver = true
    · have hc : ¬ s.countdown - 1 = 0 := by
        intro h
        exact hno ⟨rfl, hg, by omega⟩
      simp [step, countdownTick, hg, hc]
    · simp [step, countdownTick, hg]

theorem step_countdown_restart_score (o : Oracle) (s : GameState)
    (hg : s.isGameOver = true) (hc : s.countdown = 1) :
    (step o Event.countdown s).player.score = 0 := by
  show (countdownTick s).player.score = 0
  unfold countdownTick
  rw [hg, hc]
  norm_num [restartGame]

theorem reachable_score (o : Oracle) (w h : ℚ) (s : GameState)
    (hr : Reachable o w h s) : 10 ∣ s.player.score ∧ 0 ≤ s.player.score := by
  induction hr with
  | init => exact ⟨⟨0, by simp [initState]⟩, by simp [initState]⟩
  | step e hs ih =>
    obtain ⟨hd, hn⟩ := ih
    rcases step_score_shape o e _ with h0 | ⟨k, hk⟩
    · rw [h0]
      exact ⟨dvd_zero 10, le_refl 0⟩
    · rw [hk]
      have hdk : (10 : ℤ) ∣ 10 * (k : ℤ) := Dvd.intro _ rfl
      have hp : (0 : ℤ) ≤ 10 * (k : ℤ) := by positivity
      exact ⟨dvd_add hd hdk, by linarith⟩

/-- C10: in every reachable state the score is a non-negative multiple
of 10; it starts at 0; every asynchronous event either leaves the
score, adds a multiple of 10 (one 10 per projectile–asteroid collision
resolved in that tick), or — only for the countdown tick that fires the
restart — resets it to 0; in particular the score never decreases
except at the restart reset. -/
theorem score_invariant_spec (o : Oracle) (w h : ℚ) :
    (∀ s, Reachable o w h s → 10 ∣ s.player.score ∧ 0 ≤ s.player.score) ∧
    (initState w h).player.score = 0 ∧
    (∀ (e : Event) (s : GameState), (step o e s).player.score = 0 ∨
      ∃ k : ℕ, (step o e s).player.score = s.player.score + 10 * k) ∧
    (∀ (e : Event) (s : GameState),
      ¬(e = Event.countdown ∧ s.isGameOver = true ∧ s.countdown = 1) →
      s.player.score ≤ (step o e s).player.score) ∧
    (∀ s : GameState, s.isGameOver = true → s.countdown = 1 →
      (step o Event.countdown s).player.score = 0) :=
  ⟨fun s hr => reachable_score o w h s hr, rfl,
   fun e s => step_score_shape o e s,
   fun e s hno => step_score_mono o e s hno,
   fun s hg hc => step_countdown_restart_score o s hg hc⟩

/-- Witness for C10 at the initial state of a concrete run. -/
theorem score_invariant_spec_witness :
    10 ∣ (initState 800 600).player.score ∧ 0 ≤ (initState 800 600).player.score :=
  (score_invariant_spec o0 800 600).1 (initState 800 600) Reachable.init

end Astron
